import Mathlib

/-!
Verification of the assessment orchestration and response-normalization
pipeline of the `ai_workforce_transition` repository.

The Python sources under `assessment/` are shallowly embedded here:

* `assessment/services.py` — payload extractor (`extract_and_load_json`),
  result normalizer (`_parse_payload` and its `_safe_*` helpers), score
  transposition (`_transpose_readiness_score`), extension validation
  (`_validate_extension`), remote-resource cleanup (`_delete_remote_file`,
  the document branch of `analyze_role`).
* `assessment/forms.py` — `RoleAssessmentForm.clean`, `_validate_file`,
  `_validate_role_description`.
* `assessment/views.py` / `assessment/models.py` — `AssessmentView.form_valid`
  quota handling and `UserProfile.decrement_run`.

Python text is modelled as `List Char`; Python objects obtained from
`json.loads` are modelled by the inductive `PyValue`; Python `float`
arithmetic is modelled exactly by the fraction type `PyFloat` (every number
occurring in the scoring formulas is far from any binary rounding boundary,
so exact fractions and IEEE doubles round identically here).
-/

/-- Exact-fraction model of Python float arithmetic.  The denominator is
kept positive by construction in every expression built below. -/
structure PyFloat where
  num : ℤ
  den : ℤ
deriving DecidableEq

def PyFloat.ofInt (n : ℤ) : PyFloat := ⟨n, 1⟩

def PyFloat.add (x y : PyFloat) : PyFloat := ⟨x.num * y.den + y.num * x.den, x.den * y.den⟩

def PyFloat.sub (x y : PyFloat) : PyFloat := ⟨x.num * y.den - y.num * x.den, x.den * y.den⟩

def PyFloat.mul (x y : PyFloat) : PyFloat := ⟨x.num * y.num, x.den * y.den⟩

def PyFloat.div (x y : PyFloat) : PyFloat := ⟨x.num * y.den, x.den * y.num⟩

/-- Strict comparison, valid while both denominators are positive. -/
def PyFloat.blt (x y : PyFloat) : Bool := x.num * y.den < y.num * x.den

/-- Floor of a fraction with positive denominator. -/
def PyFloat.floorInt (x : PyFloat) : ℤ := Int.fdiv x.num x.den

/-- Truncation toward zero, the behaviour of Python `int(float)`. -/
def PyFloat.truncInt (x : PyFloat) : ℤ := Int.tdiv x.num x.den

/-- Python values as produced by `json.loads`: `None`, `bool`, `int`,
`float`, `str`, `list`, `dict` (JSON object keys are strings).  Python
parses the extended-JSON tokens `Infinity`, `-Infinity` and `NaN` by
default, producing the non-finite floats `float(inf)`, `float(-inf)` and
`float(nan)`; those are the `inf`/`nan` constructors (finite floats are
`float` over the exact fraction type). -/
inductive PyValue where
  | none
  | bool (b : Bool)
  | int (n : ℤ)
  | float (f : PyFloat)
  | inf (pos : Bool)
  | nan
  | str (s : List Char)
  | list (xs : List PyValue)
  | dict (kvs : List (List Char × PyValue))

/-- Python truthiness of a `PyValue`. -/
def pyTruthy : PyValue → Bool
  | .none => false
  | .bool b => b
  | .int n => n != 0
  | .float f => f.num != 0
  | .inf _ => true
  | .nan => true
  | .str s => !s.isEmpty
  | .list xs => !xs.isEmpty
  | .dict kvs => !kvs.isEmpty

/-- Decimal digits of a natural number.  The fuel argument makes the
recursion structural (hence kernel-reducible); `n + 1` units of fuel are
always enough for `n`. -/
def natToCharsAux : ℕ → ℕ → List Char
  | 0, _ => []
  | fuel + 1, n =>
      if n < 10 then [Char.ofNat (48 + n)]
      else natToCharsAux fuel (n / 10) ++ [Char.ofNat (48 + n % 10)]

def natToChars (n : ℕ) : List Char := natToCharsAux (n + 1) n

def intToChars (n : ℤ) : List Char :=
  if n < 0 then '-' :: natToChars n.natAbs else natToChars n.toNat

/-- Rendering of a Python float.  Python prints the shortest decimal that
round-trips; we print the exact fraction instead.  No claim below depends
on the rendered digits, only on the string being non-empty. -/
def pyFloatChars (f : PyFloat) : List Char :=
  if f.den = 1 then intToChars f.num ++ ".0".data
  else intToChars f.num ++ "/".data ++ natToChars f.den.natAbs

mutual

/-- Python `repr` of a JSON-derived value (the rendering used for elements
inside `str(list)` / `str(dict)`). -/
def pyRepr : PyValue → List Char
  | .none => "None".data
  | .bool b => if b then "True".data else "False".data
  | .int n => intToChars n
  | .float f => pyFloatChars f
  | .inf b => if b then "inf".data else "-inf".data
  | .nan => "nan".data
  | .str s => '\x27' :: s ++ ['\x27']
  | .list xs => '[' :: pyReprList xs ++ [']']
  | .dict kvs => '\x7b' :: pyReprDict kvs ++ ['\x7d']

def pyReprList : List PyValue → List Char
  | [] => []
  | [x] => pyRepr x
  | x :: y :: rest => pyRepr x ++ ", ".data ++ pyReprList (y :: rest)

def pyReprDict : List (List Char × PyValue) → List Char
  | [] => []
  | [kv] => '\x27' :: kv.1 ++ "\x27: ".data ++ pyRepr kv.2
  | kv :: kv2 :: rest => '\x27' :: kv.1 ++ "\x27: ".data ++ pyRepr kv.2 ++ ", ".data ++ pyReprDict (kv2 :: rest)

end

/-- Python `str` of a JSON-derived value: a string prints as itself, every
other value prints as its `repr`. -/
def pyStr : PyValue → List Char
  | .str s => s
  | v => pyRepr v

/-- Python whitespace recognised by `str.strip()` (ASCII portion). -/
def isPySpace (c : Char) : Bool :=
  c == ' ' || c == '\t' || c == '\n' || c == '\r' || c == '\x0b' || c == '\x0c'

/-- Python `str.strip()`. -/
def pyStrip (s : List Char) : List Char :=
  ((s.dropWhile isPySpace).reverse.dropWhile isPySpace).reverse

/-- Python `str.lower()` (ASCII portion). -/
def pyLower (s : List Char) : List Char := s.map Char.toLower

/-- Python `str.endswith(t)`. -/
def pyEndsWith (s t : List Char) : Bool := t.reverse.isPrefixOf s.reverse

def digitToNat (c : Char) : ℕ := c.toNat - 48

/-- Digits of a Python integer literal after the first one; a single `_`
is allowed between digits. -/
def parseDigitsGo : List Char → ℕ → Option ℕ
  | [], acc => some acc
  | '_' :: c :: rest, acc =>
      if c.isDigit then parseDigitsGo rest (acc * 10 + digitToNat c) else Option.none
  | c :: rest, acc =>
      if c.isDigit then parseDigitsGo rest (acc * 10 + digitToNat c) else Option.none

def parseUnsignedInt (s : List Char) : Option ℕ :=
  match s with
  | [] => Option.none
  | c :: rest => if c.isDigit then parseDigitsGo rest (digitToNat c) else Option.none

/-- Python `int(string)`: optional surrounding whitespace, optional sign,
decimal digits. -/
def pyIntOfString (s : List Char) : Option ℤ :=
  let t := pyStrip s
  match t with
  | '+' :: rest => (parseUnsignedInt rest).map (fun n => (n : ℤ))
  | '-' :: rest => (parseUnsignedInt rest).map (fun n => -(n : ℤ))
  | _ => (parseUnsignedInt t).map (fun n => (n : ℤ))

/-- Outcome of Python `int(value)`: a value, an exception of a kind that
`_safe_int` catches (`TypeError` or `ValueError`), or `OverflowError`,
which it does not. -/
inductive IntCoercion where
  | value (n : ℤ)
  | caught
  | overflow
deriving DecidableEq

/-- Python `int(value)` on a JSON-derived value (note `bool` is an `int`
subtype in Python; `int(float(nan))` raises `ValueError`, while
`int(float(inf))` and `int(float(-inf))` raise `OverflowError`). -/
def pyToInt : PyValue → IntCoercion
  | .none => .caught
  | .bool b => .value (if b then 1 else 0)
  | .int n => .value n
  | .float f => .value f.truncInt
  | .inf _ => .overflow
  | .nan => .caught
  | .str s =>
      match pyIntOfString s with
      | some n => .value n
      | Option.none => .caught
  | .list _ => .caught
  | .dict _ => .caught

/-- Python banker rounding (`round(float)` with round-half-to-even). -/
def pythonRound (q : PyFloat) : ℤ :=
  let fl := q.floorInt
  let fr := q.sub (PyFloat.ofInt fl)
  if fr.blt ⟨1, 2⟩ then fl
  else if (⟨1, 2⟩ : PyFloat).blt fr then fl + 1
  else if fl % 2 = 0 then fl else fl + 1

/-! ## `assessment/services.py` — result normalizer -/

/-- Model of the `AssessmentResult` dataclass of `assessment/services.py`. -/
structure AssessmentResult where
  readiness_score : ℤ
  readiness_category : List Char
  time_horizon : List Char
  risk_score : ℤ
  recommendation : List Char
  reassessment_time : List Char
  automatable_signals : List (List Char × ℤ)
  risk_signals : List (List Char × ℤ)
  duty_sample : List (List Char)
  role_excerpt : List Char
  research_guidance : List Char
  research_insights : List (List Char)
deriving DecidableEq

/-- Errors that can escape the service layer. -/
inductive PyError where
  | attributeError
  | analysisError
  | unsupportedFileType
  | overflowError
deriving DecidableEq

/-- Model of `_safe_int(value, default)`: `int(value)` with its `except
(TypeError, ValueError)` clause replaced by the default — an
`OverflowError` (a non-finite float) is not in that clause and escapes.
The argument is `payload.get(key)`, hence an `Option` (`none` models
Python `None` for an absent key; `int(None)` raises `TypeError`, which is
caught). -/
def _safe_int (v : Option PyValue) (default : ℤ) : Except PyError ℤ :=
  match v with
  | Option.none => .ok default
  | some j =>
      match pyToInt j with
      | .value n => .ok n
      | .caught => .ok default
      | .overflow => .error .overflowError

/-- Elementwise body of the `_safe_dict` comprehension: `str(k)` (keys are
already strings) paired with `_safe_int(v, 0)`, evaluated left to right,
the first uncaught exception propagating. -/
def safeDictItems : List (List Char × PyValue) → Except PyError (List (List Char × ℤ))
  | [] => .ok []
  | kv :: rest => do
      let n ← _safe_int (some kv.2) 0
      let t ← safeDictItems rest
      pure ((kv.1, n) :: t)

/-- Model of `_safe_dict(value)`: keep a `dict` as label → `_safe_int(value, 0)`,
anything else becomes the empty mapping; an `OverflowError` raised by
`_safe_int` inside the comprehension propagates. -/
def _safe_dict (v : Option PyValue) : Except PyError (List (List Char × ℤ)) :=
  match v with
  | some (.dict kvs) => safeDictItems kvs
  | _ => .ok []

/-- Model of `_safe_list(value)`: keep string entries, stringify `int`/`float`
entries (Python `bool` is an `int` and is stringified too, and the
non-finite floats stringify as `inf`/`-inf`/`nan`), drop the rest; a
non-list input yields `[]`. -/
def _safe_list (v : Option PyValue) : List (List Char) :=
  match v with
  | some (.list xs) =>
      xs.foldr
        (fun item acc =>
          match item with
          | .str s => s :: acc
          | .bool b => (if b then "True".data else "False".data) :: acc
          | .int n => intToChars n :: acc
          | .float f => pyFloatChars f :: acc
          | .inf b => (if b then "inf".data else "-inf".data) :: acc
          | .nan => "nan".data :: acc
          | _ => acc)
        []
  | _ => []

/-- The entry transformation applied by `_safe_list` to a single list
item: `some` of the kept string for string and numeric entries, `none`
for the dropped ones. -/
def stringifyEntry : PyValue → Option (List Char)
  | .str s => some s
  | .bool b => some (if b then "True".data else "False".data)
  | .int n => some (intToChars n)
  | .float f => some (pyFloatChars f)
  | .inf b => some (if b then "inf".data else "-inf".data)
  | .nan => some "nan".data
  | _ => Option.none

/-- Model of `_clamp_score(score) = max(0, min(int(score), 100))`. -/
def _clamp_score (score : ℤ) : ℤ := max 0 (min score 100)

/-- Model of `_transpose_readiness_score(score)`:
`adjusted = ((clamped - 1) * 74.0 / 99.0) + 1`,
`scaled = (adjusted / 75.0) * 100.0`, result `clamp(round(scaled))`,
with `0` returned for a clamped score `<= 0`. -/
def _transpose_readiness_score (score : ℤ) : ℤ :=
  let clamped := _clamp_score score
  if clamped ≤ 0 then 0
  else
    let adjusted := PyFloat.add (PyFloat.div (PyFloat.mul (PyFloat.sub (PyFloat.ofInt clamped) (PyFloat.ofInt 1)) (PyFloat.ofInt 74)) (PyFloat.ofInt 99)) (PyFloat.ofInt 1)
    let scaled := PyFloat.mul (PyFloat.div adjusted (PyFloat.ofInt 75)) (PyFloat.ofInt 100)
    _clamp_score (pythonRound scaled)

def _readiness_category (score : ℤ) : List Char :=
  if score ≥ 75 then "Ready for full transition".data
  else if score > 50 then "AI-assisted partial transition (FTE reduction, but not a full replacement)".data
  else "Productivity improvement with AI, but revisit transition at the suggested timeframe".data

def _research_guidance (score : ℤ) : List Char :=
  if score > 74 then "This role might be ready for full transition as most of its requirements can be replicated by AI if the functions are properly designed and mapped and all the risks are carefully considered and mitigated.".data
  else if score > 50 then "Focus research on orchestrating AI-assisted partial transitions, emphasizing hybrid workflows, targeted FTE reductions, and pinpointing the safeguards human oversight must provide.".data
  else "Direct research toward productivity boosters and risk mitigation. Document lessons learned and revisit the transition strategy at the recommended reassessment horizon to gauge readiness improvements.".data

/-- Model of `payload.get(key)` on a Python dict. -/
def pyGet (kvs : List (List Char × PyValue)) (key : List Char) : Option PyValue :=
  List.lookup key kvs

/-- Model of `str(payload.get(key) or default)`. -/
def pyStrOr (v : Option PyValue) (default : List Char) : List Char :=
  match v with
  | some j => if pyTruthy j then pyStr j else default
  | Option.none => default

/-- The infallible tail of `_parse_payload`: the record assembled from the
four already-coerced integer results and the remaining (total) field
coercions of the payload. -/
def _assemble_result (kvs : List (List Char × PyValue)) (readiness risk : ℤ)
    (automatable risk_signals : List (List Char × ℤ)) : AssessmentResult :=
  let transformed := _transpose_readiness_score readiness
  let duty_sample := _safe_list (pyGet kvs "duty_sample".data)
  { readiness_score := transformed
    readiness_category := _readiness_category transformed
    time_horizon := pyStrOr (pyGet kvs "time_horizon".data) "Time horizon unavailable".data
    risk_score := _clamp_score risk
    recommendation := pyStrOr (pyGet kvs "recommendation".data) "Recommendation unavailable. Rerun the assessment.".data
    reassessment_time := pyStrOr (pyGet kvs "reassessment_time".data) "Reassessment guidance unavailable.".data
    automatable_signals := automatable
    risk_signals := risk_signals
    duty_sample := if duty_sample.isEmpty then ["Role duties summary unavailable.".data] else duty_sample
    role_excerpt := pyStrOr (pyGet kvs "role_excerpt".data) "Role excerpt unavailable.".data
    research_guidance := _research_guidance transformed
    research_insights := _safe_list (pyGet kvs "research_insights".data) }

/-- Model of `_parse_payload(payload)` on a dict payload, in the source
evaluation order: the four `int()`-coercing steps (`readiness_score`,
`risk_score`, then the two signal dictionaries) may raise `OverflowError`
through `_safe_int`; every other field coercion is total. -/
def _parse_payload (kvs : List (List Char × PyValue)) : Except PyError AssessmentResult := do
  let readiness ← _safe_int (pyGet kvs "readiness_score".data) 0
  let risk ← _safe_int (pyGet kvs "risk_score".data) 50
  let automatable ← _safe_dict (pyGet kvs "automatable_signals".data)
  let risk_signals ← _safe_dict (pyGet kvs "risk_signals".data)
  pure (_assemble_result kvs readiness risk automatable risk_signals)

/-- Holds (as `true`) when `int()` on this `payload.get` result raises
`OverflowError`, i.e. the value is a non-finite float. -/
def intCoercionOverflows (v : Option PyValue) : Bool :=
  match v with
  | some j =>
      match pyToInt j with
      | .overflow => true
      | _ => false
  | Option.none => false

/-- Holds (as `true`) when the `_safe_dict` comprehension on this
`payload.get` result raises `OverflowError` for some entry. -/
def dictCoercionOverflows (v : Option PyValue) : Bool :=
  match v with
  | some (.dict kvs) => kvs.any (fun kv => intCoercionOverflows (some kv.2))
  | _ => false

/-- The fully-defaulted `AssessmentResult` produced from the empty
payload; used as a concrete value by witnesses. -/
def defaultResult : AssessmentResult :=
  { readiness_score := 0
    readiness_category := "Productivity improvement with AI, but revisit transition at the suggested timeframe".data
    time_horizon := "Time horizon unavailable".data
    risk_score := 50
    recommendation := "Recommendation unavailable. Rerun the assessment.".data
    reassessment_time := "Reassessment guidance unavailable.".data
    automatable_signals := []
    risk_signals := []
    duty_sample := ["Role duties summary unavailable.".data]
    role_excerpt := "Role excerpt unavailable.".data
    research_guidance := "Direct research toward productivity boosters and risk mitigation. Document lessons learned and revisit the transition strategy at the recommended reassessment horizon to gauge readiness improvements.".data
    research_insights := [] }

/-- Model of `_parse_payload(payload)` on an arbitrary value: Python evaluates
`payload.get(...)`, which raises `AttributeError` when `payload` is `None`
(the extractor's failure value) or any other non-dict. -/
def _parse_payload_any : Option PyValue → Except PyError AssessmentResult
  | some (.dict kvs) => _parse_payload kvs
  | _ => .error .attributeError

/-! ## `assessment/services.py` — payload extractor

`extract_and_load_json(text)` searches `text` with the regex
`(three backticks)json\n(\{.*?\})\n(three backticks)` under `re.DOTALL`:
the leftmost position at which the whole pattern can match wins, and the
lazy `.*?` makes the captured group end at the first `}` that is followed
by a newline and a closing fence.  The captured substring is then fed to
`json.loads`; a parse failure, like a missing fence, yields `None`.
`json.loads` itself is standard-library code, so the extractor is
parameterised by it (`loads`). -/

/-- The eight fence characters plus the mandatory `{`:  ```` ```json\n{ ````. -/
def fenceOpenChars : List Char := "```json\n\x7b".data

/-- The closing requirement after the captured `}`:  `` \n``` ``. -/
def closeFenceChars : List Char := "\n```".data

/-- Lazy scan for the closing brace of the captured group: returns the text consumed up
to and including the first `}` that is directly followed by `` \n``` ``. -/
def scanClose : List Char → Option (List Char)
  | [] => Option.none
  | c :: rest =>
      if c == '\x7d' && closeFenceChars.isPrefixOf rest then some [c]
      else (scanClose rest).map (fun t => c :: t)

/-- `re.search` for the fence pattern: leftmost start position wins; at a
viable start the captured group is `{` plus the lazy closing scan. -/
def searchFence : List Char → Option (List Char)
  | [] => Option.none
  | c :: rest =>
      if fenceOpenChars.isPrefixOf (c :: rest) then
        match scanClose (rest.drop 8) with
        | some inner => some ('\x7b' :: inner)
        | Option.none => searchFence rest
      else searchFence rest

/-- Model of `extract_and_load_json(text)`, parameterised by `json.loads`. -/
def extract_and_load_json (loads : List Char → Option PyValue) (text : List Char) : Option PyValue :=
  match searchFence text with
  | some captured => loads captured
  | Option.none => Option.none

/-- The code path inside `analyze_role`: `_request_openai_analysis` returns
`extract_and_load_json(...)` (possibly `None`), and the result is passed
straight to `_parse_payload`. -/
def analyzeResponseText (loads : List Char → Option PyValue) (text : List Char) : Except PyError AssessmentResult :=
  _parse_payload_any (extract_and_load_json loads text)

/-- Holds (as `true`) iff no viable fence-pattern start lies strictly inside `p` when
the full scanned text is `p ++ rest`.  (This is the property the regex
needs of the prose preceding the fenced block.) -/
def fenceFreeBefore (p rest : List Char) : Bool :=
  (List.range p.length).all (fun i => !(fenceOpenChars.isPrefixOf ((p ++ rest).drop i)))

/-! ## `assessment/forms.py` — `RoleAssessmentForm` -/

def MAX_FILE_SIZE : ℤ := 5 * 1024 * 1024

/-- Constant from `forms.py` line 25: `SUPPORTED_EXTENSIONS = (".pdf")` — note this is a
parenthesised *string*, not a tuple, so iterating over it yields the four
characters `.`, `p`, `d`, `f`. -/
def form_SUPPORTED_EXTENSIONS : List Char := ".pdf".data

/-- Constant from `services.py` line 16: `SUPPORTED_EXTENSIONS = (".pdf", ".docx")` — a
genuine tuple of two extensions. -/
def services_SUPPORTED_EXTENSIONS : List (List Char) := [".pdf".data, ".docx".data]

inductive FormError where
  | bothProvided
  | neitherProvided
  | fileTooLarge
  | invalidFileType
  | descriptionTooShort
  | maxLengthExceeded
deriving DecidableEq

structure UploadedFile where
  name : List Char
  size : ℤ
deriving DecidableEq

/-- Model of `RoleAssessmentForm._validate_file`: size limit, then
`any(filename.endswith(ext) for ext in SUPPORTED_EXTENSIONS)` — with `ext`
ranging over the *characters* of the string `".pdf"`. -/
def _validate_file (f : UploadedFile) : Except FormError Unit :=
  if f.size > MAX_FILE_SIZE then .error .fileTooLarge
  else if form_SUPPORTED_EXTENSIONS.any (fun ext => pyEndsWith (pyLower f.name) [ext]) then .ok ()
  else .error .invalidFileType

/-- Model of `RoleAssessmentForm._validate_role_description`. -/
def _validate_role_description (rd : List Char) : Except FormError Unit :=
  if rd.length < 50 then .error .descriptionTooShort else .ok ()

/-- Model of `RoleAssessmentForm.clean`: strip the description, reject when both or
neither input is present, then run the per-input validator. -/
def clean (file : Option UploadedFile) (desc : List Char) : Except FormError (Option UploadedFile × List Char) :=
  let rd := pyStrip desc
  if file.isSome && !rd.isEmpty then .error .bothProvided
  else if !file.isSome && rd.isEmpty then .error .neitherProvided
  else
    match file with
    | some f => (_validate_file f).map (fun _ => (file, rd))
    | Option.none => (_validate_role_description rd).map (fun _ => (file, rd))

/-- Full form validation: the Django `CharField(max_length=4000)` check runs
before `Form.clean`. -/
def form_is_valid (file : Option UploadedFile) (desc : List Char) : Except FormError (Option UploadedFile × List Char) :=
  if desc.length > 4000 then .error .maxLengthExceeded
  else clean file desc

/-! ## `assessment/services.py` — extension validation and pipeline order -/

/-- Model of `_validate_extension(filename)`: lower-case the name and require one of
the tuple entries `".pdf"`, `".docx"` as a suffix, else raise
`UnsupportedFileType`. -/
def _validate_extension (filename : List Char) : Except PyError Unit :=
  if services_SUPPORTED_EXTENSIONS.any (fun ext => pyEndsWith (pyLower filename) ext) then .ok ()
  else .error .unsupportedFileType

inductive DocError where
  | tooLarge
  | formValidationError
  | unsupportedFileType
deriving DecidableEq

/-- Validation seen by a submitted document along the request pipeline:
`RoleAssessmentForm._validate_file` (a `ValidationError` on failure) runs
first, then `analyze_role` calls `_validate_extension` (raising
`UnsupportedFileType` on failure). -/
def document_validation (filename : List Char) (size : ℤ) : Except DocError Unit :=
  match _validate_file ⟨filename, size⟩ with
  | .error .fileTooLarge => .error .tooLarge
  | .error _ => .error .formValidationError
  | .ok () =>
      match _validate_extension filename with
      | .error _ => .error .unsupportedFileType
      | .ok () => .ok ()

/-! ## `assessment/services.py` — document branch of `analyze_role` -/

inductive RemoteEvent where
  | uploadCall
  | analysisCall (fileId : ℕ)
  | deleteCall (fileId : ℕ)
deriving DecidableEq

inductive UploadOutcome where
  | success (fileId : ℕ)
  | failure
deriving DecidableEq

inductive CallOutcome where
  | success (payload : Option PyValue)
  | failure
  
/-- One possible behaviour of the remote service for a single request. -/
structure RemoteEnv where
  upload : UploadOutcome
  call : CallOutcome
  deleteFails : Bool

/-- Model of `_delete_remote_file`: `client.files.delete` inside
`try: ... except Exception: logger.warning(...)` — the call either
succeeds or its exception is caught and logged, so the function always
returns normally. -/
def _delete_remote_file (deleteFails : Bool) : Except PyError Unit :=
  match deleteFails with
  | true => .ok ()
  | false => .ok ()

/-- The document branch of `analyze_role`: upload (failures wrapped in
`AnalysisError`), then the analysis call inside `try/finally` whose
`finally` invokes `_delete_remote_file`, then `_parse_payload`.  Returns
the trace of remote calls together with the outcome. -/
def analyze_role_document (env : RemoteEnv) : List RemoteEvent × Except PyError AssessmentResult :=
  match env.upload with
  | .failure => ([RemoteEvent.uploadCall], .error .analysisError)
  | .success fid =>
      let trace := [RemoteEvent.uploadCall, RemoteEvent.analysisCall fid, RemoteEvent.deleteCall fid]
      match _delete_remote_file env.deleteFails with
      | .error e => (trace, .error e)
      | .ok () =>
          match env.call with
          | .failure => (trace, .error .analysisError)
          | .success payload => (trace, _parse_payload_any payload)

/-! ## `assessment/views.py` and `assessment/models.py` — quota -/

/-- Model of `UserProfile.decrement_run`: refuse below-zero decrements, otherwise
subtract one and report success. -/
def decrement_run (runs : ℤ) : ℤ × Bool :=
  if runs ≤ 0 then (runs, false) else (runs - 1, true)

inductive AnalysisOutcome where
  | success (result : AssessmentResult)
  | unsupportedFileType
  | analysisError
  | unexpected

inductive ViewOutcome where
  | quotaExhausted
  | formError
  | rendered
deriving DecidableEq

/-- Model of `AssessmentView.form_valid`: reject when no runs remain, run the
analysis, decrement the quota only in the `else` (no-exception) branch,
and turn every exception into a form error. -/
def form_valid (runs : ℤ) (outcome : AnalysisOutcome) : ℤ × ViewOutcome :=
  if runs ≤ 0 then (runs, .quotaExhausted)
  else
    match outcome with
    | .success _ => ((decrement_run runs).1, .rendered)
    | _ => (runs, .formError)

/-! ## Helper lemmas -/

theorem clamp_score_nonneg (s : ℤ) : 0 ≤ _clamp_score s := le_max_left 0 _

theorem clamp_score_le_100 (s : ℤ) : _clamp_score s ≤ 100 :=
  max_le (by norm_num) (min_le_right _ _)

theorem clamp_score_mono {s t : ℤ} (h : s ≤ t) : _clamp_score s ≤ _clamp_score t :=
  max_le_max le_rfl (min_le_min h le_rfl)

theorem clamp_score_idem (s : ℤ) : _clamp_score (_clamp_score s) = _clamp_score s := by
  simp only [_clamp_score, max_def, min_def]
  split_ifs <;> omega

/-- On every clamped input the readiness transposition is the identity:
`scaled = s + (100 - s)/297` differs from `s` by less than one half for
all `1 ≤ s ≤ 100`, so the rounding returns `s` itself. -/
theorem transpose_eq_clamp (s : ℤ) : _transpose_readiness_score s = _clamp_score s := by
  have key : ∀ n : Fin 101, _transpose_readiness_score (n.1 : ℤ) = _clamp_score (n.1 : ℤ) := by decide
  have h0 : 0 ≤ _clamp_score s := clamp_score_nonneg s
  have h1 : _clamp_score s ≤ 100 := clamp_score_le_100 s
  have htrans : _transpose_readiness_score s = _transpose_readiness_score (_clamp_score s) := by
    simp only [_transpose_readiness_score, clamp_score_idem]
  have hc : ((_clamp_score s).toNat : ℤ) = _clamp_score s := Int.toNat_of_nonneg h0
  have hkey := key ⟨(_clamp_score s).toNat, by omega⟩
  rw [hc] at hkey
  rw [htrans, hkey, clamp_score_idem]

theorem natToCharsAux_ne_nil (fuel n : ℕ) : natToCharsAux (fuel + 1) n ≠ [] := by
  simp only [natToCharsAux]
  split
  · simp
  · simp

theorem natToChars_ne_nil (n : ℕ) : natToChars n ≠ [] :=
  natToCharsAux_ne_nil n n

theorem intToChars_ne_nil (n : ℤ) : intToChars n ≠ [] := by
  unfold intToChars
  split
  · simp
  · exact natToChars_ne_nil _

theorem pyFloatChars_ne_nil (f : PyFloat) : pyFloatChars f ≠ [] := by
  unfold pyFloatChars
  split <;> simp [List.append_eq_nil, intToChars_ne_nil]

theorem pyRepr_ne_nil (v : PyValue) : pyRepr v ≠ [] := by
  cases v with
  | none => simp [pyRepr]
  | bool b => cases b <;> simp [pyRepr]
  | int n => simpa [pyRepr] using intToChars_ne_nil n
  | float f => simpa [pyRepr] using pyFloatChars_ne_nil f
  | inf b => cases b <;> simp [pyRepr]
  | nan => simp [pyRepr]
  | str s => simp [pyRepr]
  | list xs => simp [pyRepr]
  | dict kvs => simp [pyRepr]

theorem pyStr_ne_nil_of_truthy (v : PyValue) (h : pyTruthy v = true) : pyStr v ≠ [] := by
  cases v with
  | str s =>
      simp [pyTruthy] at h
      simpa [pyStr] using h
  | none => exact pyRepr_ne_nil PyValue.none
  | bool b => exact pyRepr_ne_nil (PyValue.bool b)
  | int n => exact pyRepr_ne_nil (PyValue.int n)
  | float f => exact pyRepr_ne_nil (PyValue.float f)
  | inf b => exact pyRepr_ne_nil (PyValue.inf b)
  | nan => exact pyRepr_ne_nil PyValue.nan
  | list xs => exact pyRepr_ne_nil (PyValue.list xs)
  | dict kvs => exact pyRepr_ne_nil (PyValue.dict kvs)

theorem pyStrOr_ne_nil (v : Option PyValue) (d : List Char) (hd : d ≠ []) :
    pyStrOr v d ≠ [] := by
  cases v with
  | none => simpa [pyStrOr] using hd
  | some j =>
      simp only [pyStrOr]
      split
      · exact pyStr_ne_nil_of_truthy j (by assumption)
      · exact hd

theorem readiness_category_ne_nil (s : ℤ) : _readiness_category s ≠ [] := by
  unfold _readiness_category
  split_ifs <;> decide

theorem research_guidance_ne_nil (s : ℤ) : _research_guidance s ≠ [] := by
  unfold _research_guidance
  split_ifs <;> decide

theorem safe_list_filterMap (xs : List PyValue) :
    _safe_list (some (PyValue.list xs)) = xs.filterMap stringifyEntry := by
  induction xs with
  | nil => rfl
  | cons a t ih =>
      simp only [_safe_list, List.foldr] at ih ⊢
      cases a <;> simp [List.filterMap_cons, stringifyEntry, ih]

theorem safe_list_non_list (v : PyValue) (h : ∀ xs, v ≠ PyValue.list xs) :
    _safe_list (some v) = [] := by
  cases v <;> simp [_safe_list]
  exact absurd rfl (h _)

theorem safe_int_ok (v : Option PyValue) (d : ℤ) (h : intCoercionOverflows v = false) :
    ∃ n, _safe_int v d = Except.ok n := by
  cases v with
  | none => exact ⟨d, rfl⟩
  | some j =>
      cases hj : pyToInt j with
      | value n => exact ⟨n, by simp [_safe_int, hj]⟩
      | caught => exact ⟨d, by simp [_safe_int, hj]⟩
      | overflow =>
          exfalso
          have ht : intCoercionOverflows (some j) = true := by
            simp [intCoercionOverflows, hj]
          rw [h] at ht
          exact Bool.noConfusion ht

theorem safeDictItems_ok (kvs : List (List Char × PyValue))
    (h : kvs.any (fun kv => intCoercionOverflows (some kv.2)) = false) :
    ∃ m, safeDictItems kvs = Except.ok m := by
  induction kvs with
  | nil => exact ⟨[], rfl⟩
  | cons kv rest ih =>
      rw [List.any_cons, Bool.or_eq_false_iff] at h
      obtain ⟨h1, h2⟩ := h
      obtain ⟨n, hn⟩ := safe_int_ok (some kv.2) 0 h1
      obtain ⟨m, hm⟩ := ih h2
      exact ⟨(kv.1, n) :: m,
        by simp [safeDictItems, hn, hm, Bind.bind, Except.bind, pure, Except.pure]⟩

theorem safe_dict_ok (v : Option PyValue) (h : dictCoercionOverflows v = false) :
    ∃ m, _safe_dict v = Except.ok m := by
  cases v with
  | none => exact ⟨[], rfl⟩
  | some j =>
      cases j with
      | dict kvs =>
          unfold dictCoercionOverflows at h
          simpa [_safe_dict] using safeDictItems_ok kvs h
      | none => exact ⟨[], rfl⟩
      | bool b => exact ⟨[], rfl⟩
      | int n => exact ⟨[], rfl⟩
      | float f => exact ⟨[], rfl⟩
      | inf b => exact ⟨[], rfl⟩
      | nan => exact ⟨[], rfl⟩
      | str s => exact ⟨[], rfl⟩
      | list xs => exact ⟨[], rfl⟩

theorem parse_payload_eq_ok (kvs : List (List Char × PyValue)) (a b : ℤ)
    (c d : List (List Char × ℤ))
    (ha : _safe_int (pyGet kvs "readiness_score".data) 0 = Except.ok a)
    (hb : _safe_int (pyGet kvs "risk_score".data) 50 = Except.ok b)
    (hc : _safe_dict (pyGet kvs "automatable_signals".data) = Except.ok c)
    (hd : _safe_dict (pyGet kvs "risk_signals".data) = Except.ok d) :
    _parse_payload kvs = Except.ok (_assemble_result kvs a b c d) := by
  simp [_parse_payload, ha, hb, hc, hd, Bind.bind, Except.bind, pure, Except.pure]

theorem parse_payload_ok_result (kvs : List (List Char × PyValue)) (r : AssessmentResult)
    (hok : _parse_payload kvs = Except.ok r) :
    ∃ a b c d, r = _assemble_result kvs a b c d := by
  unfold _parse_payload at hok
  cases ha : _safe_int (pyGet kvs "readiness_score".data) 0 <;>
    cases hb : _safe_int (pyGet kvs "risk_score".data) 50 <;>
      cases hc : _safe_dict (pyGet kvs "automatable_signals".data) <;>
        cases hd : _safe_dict (pyGet kvs "risk_signals".data) <;>
          simp [ha, hb, hc, hd, Bind.bind, Except.bind, pure, Except.pure] at hok
  exact ⟨_, _, _, _, hok.symm⟩

theorem parse_payload_ok_duty (kvs : List (List Char × PyValue)) (r : AssessmentResult)
    (hok : _parse_payload kvs = Except.ok r) :
    r.duty_sample =
      (if (_safe_list (pyGet kvs "duty_sample".data)).isEmpty
        then ["Role duties summary unavailable.".data]
        else _safe_list (pyGet kvs "duty_sample".data)) := by
  obtain ⟨a, b, c, d, hr⟩ := parse_payload_ok_result kvs r hok
  rw [hr]
  simp [_assemble_result]

/-! ## Claim C3 — the readiness remap -/

/-- C3 counterexample: the claim states that a raw score of 75 is mapped
to 100; `_transpose_readiness_score` actually maps 75 to 75. -/
theorem C3_counterexample :
    _transpose_readiness_score 75 = 75 ∧ _transpose_readiness_score 75 ≠ 100 := by
  decide

/-- C3 (amended): the remap sends raw 0 to 0, raw 75 to 75 (not 100; the
value 100 is first attained at raw 100), and is monotonically
non-decreasing in the raw score over [0, 75]. -/
theorem C3_transpose_fixed_points_and_mono (s t : ℤ)
    (_h0 : 0 ≤ s) (hst : s ≤ t) (_h75 : t ≤ 75) :
    _transpose_readiness_score 0 = 0 ∧
    _transpose_readiness_score 75 = 75 ∧
    _transpose_readiness_score 100 = 100 ∧
    _transpose_readiness_score s ≤ _transpose_readiness_score t := by
  refine ⟨by decide, by decide, by decide, ?_⟩
  rw [transpose_eq_clamp, transpose_eq_clamp]
  exact clamp_score_mono hst

/-- Witness for C3 at the concrete pair 10 ≤ 60 inside [0, 75]. -/
theorem C3_witness :
    _transpose_readiness_score 0 = 0 ∧
    _transpose_readiness_score 75 = 75 ∧
    _transpose_readiness_score 100 = 100 ∧
    _transpose_readiness_score 10 ≤ _transpose_readiness_score 60 :=
  C3_transpose_fixed_points_and_mono 10 60 (by decide) (by decide) (by decide)

/-! ## Claim C2 — normalizer totality -/

/-- C2 counterexample: totality fails even on a mapping payload —
`json.loads` parses the token `Infinity`, and `int(float(inf))` raises
`OverflowError`, which the `except (TypeError, ValueError)` clause of
`_safe_int` does not catch, so `_parse_payload` raises instead of
returning a populated record; and non-mapping garbage is likewise not
treated as an empty payload (`payload.get` raises `AttributeError`). -/
theorem C2_counterexample :
    _parse_payload [("readiness_score".data, PyValue.inf true)] =
      Except.error PyError.overflowError ∧
    _parse_payload_any (some (PyValue.str "garbage".data)) =
      Except.error PyError.attributeError :=
  ⟨rfl, rfl⟩

/-- C2 (amended): for every dict payload — empty, with missing keys, or
with wrong-typed values — whose four `int()`-coerced positions
(`readiness_score`, `risk_score` and the values of the two signal
dictionaries) hold no non-finite float, `_parse_payload` returns a
record with every field populated: scores clamped into [0, 100], every
string field non-empty, `duty_sample` non-empty.  A non-finite float in
one of those positions instead raises `OverflowError` (a `NaN` raises
`ValueError`, which is caught and yields the default), and non-mapping
input raises `AttributeError` rather than being coerced to an empty
payload. -/
theorem C2_normalizer_totality (kvs : List (List Char × PyValue))
    (h1 : intCoercionOverflows (pyGet kvs "readiness_score".data) = false)
    (h2 : intCoercionOverflows (pyGet kvs "risk_score".data) = false)
    (h3 : dictCoercionOverflows (pyGet kvs "automatable_signals".data) = false)
    (h4 : dictCoercionOverflows (pyGet kvs "risk_signals".data) = false) :
    ∃ r, _parse_payload kvs = Except.ok r ∧
      0 ≤ r.readiness_score ∧
      r.readiness_score ≤ 100 ∧
      0 ≤ r.risk_score ∧
      r.risk_score ≤ 100 ∧
      r.readiness_category ≠ [] ∧
      r.time_horizon ≠ [] ∧
      r.recommendation ≠ [] ∧
      r.reassessment_time ≠ [] ∧
      r.duty_sample ≠ [] ∧
      r.role_excerpt ≠ [] ∧
      r.research_guidance ≠ [] := by
  obtain ⟨a, ha⟩ := safe_int_ok _ 0 h1
  obtain ⟨b, hb⟩ := safe_int_ok _ 50 h2
  obtain ⟨c, hc⟩ := safe_dict_ok _ h3
  obtain ⟨d, hd⟩ := safe_dict_ok _ h4
  refine ⟨_assemble_result kvs a b c d, parse_payload_eq_ok kvs a b c d ha hb hc hd,
    ?_, ?_, ?_, ?_, ?_, ?_, ?_, ?_, ?_, ?_, ?_⟩
  · simp only [_assemble_result]
    rw [transpose_eq_clamp]
    exact clamp_score_nonneg _
  · simp only [_assemble_result]
    rw [transpose_eq_clamp]
    exact clamp_score_le_100 _
  · simp only [_assemble_result]
    exact clamp_score_nonneg _
  · simp only [_assemble_result]
    exact clamp_score_le_100 _
  · simp only [_assemble_result]
    exact readiness_category_ne_nil _
  · simp only [_assemble_result]
    exact pyStrOr_ne_nil _ _ (by decide)
  · simp only [_assemble_result]
    exact pyStrOr_ne_nil _ _ (by decide)
  · simp only [_assemble_result]
    exact pyStrOr_ne_nil _ _ (by decide)
  · simp only [_assemble_result]
    split
    · simp
    · rename_i h
      simpa [List.isEmpty_iff] using h
  · simp only [_assemble_result]
    exact pyStrOr_ne_nil _ _ (by decide)
  · simp only [_assemble_result]
    exact research_guidance_ne_nil _

/-- Witness for C2: a payload with a numeric string readiness score and a
NaN risk score (caught, defaulted) satisfies the no-overflow hypotheses
and yields a fully-populated record. -/
theorem C2_witness :
    ∃ r, _parse_payload [("readiness_score".data, PyValue.str "88".data),
        ("risk_score".data, PyValue.nan)] = Except.ok r ∧
      0 ≤ r.readiness_score ∧
      r.readiness_score ≤ 100 ∧
      0 ≤ r.risk_score ∧
      r.risk_score ≤ 100 ∧
      r.readiness_category ≠ [] ∧
      r.time_horizon ≠ [] ∧
      r.recommendation ≠ [] ∧
      r.reassessment_time ≠ [] ∧
      r.duty_sample ≠ [] ∧
      r.role_excerpt ≠ [] ∧
      r.research_guidance ≠ [] :=
  C2_normalizer_totality
    [("readiness_score".data, PyValue.str "88".data), ("risk_score".data, PyValue.nan)]
    rfl rfl rfl rfl

/-! ## Claim C8 — duty_sample cap and default -/

/-- C8 counterexample: a payload whose `duty_sample` holds nine strings
produces a result whose `duty_sample` holds nine items — the normalizer
enforces no 8-item cap. -/
theorem C8_counterexample :
    _parse_payload [("duty_sample".data,
        PyValue.list (List.replicate 9 (PyValue.str "x".data)))] =
      Except.ok { defaultResult with duty_sample := List.replicate 9 "x".data } ∧
    8 < (List.replicate 9 "x".data).length := by
  constructor
  · rfl
  · decide

/-- C8 (amended): in every result the normalizer returns, `duty_sample`
holds exactly the string entries and the stringified numeric entries
(`int`, `float`, `bool` — an `int` subtype — and the non-finite floats)
of the payload list, in order and with no cap on the length (the 8-item
limit only appears in the prompt sent to the remote service); when the
key is absent, its value is not a list, or the coerced sequence is empty,
`duty_sample` defaults to the single placeholder item. -/
theorem C8_duty_sample_uncapped (kvs : List (List Char × PyValue)) (r : AssessmentResult)
    (hok : _parse_payload kvs = Except.ok r) :
    (∀ xs, pyGet kvs "duty_sample".data = some (PyValue.list xs) →
        xs.filterMap stringifyEntry ≠ [] →
        r.duty_sample = xs.filterMap stringifyEntry) ∧
    (∀ xs, pyGet kvs "duty_sample".data = some (PyValue.list xs) →
        xs.filterMap stringifyEntry = [] →
        r.duty_sample = ["Role duties summary unavailable.".data]) ∧
    (∀ v, pyGet kvs "duty_sample".data = some v → (∀ xs, v ≠ PyValue.list xs) →
        r.duty_sample = ["Role duties summary unavailable.".data]) ∧
    (pyGet kvs "duty_sample".data = Option.none →
        r.duty_sample = ["Role duties summary unavailable.".data]) := by
  have hduty := parse_payload_ok_duty kvs r hok
  refine ⟨?_, ?_, ?_, ?_⟩
  · intro xs hxs hne
    rw [hduty, hxs, safe_list_filterMap]
    simp [List.isEmpty_iff, hne]
  · intro xs hxs hemp
    rw [hduty, hxs, safe_list_filterMap, hemp]
    rfl
  · intro v hv hnl
    rw [hduty, hv, safe_list_non_list v hnl]
    rfl
  · intro hnone
    rw [hduty, hnone]
    rfl

/-- Witness for C8: a nine-item mixed list (strings, `int`, `bool`,
`None`, a finite float, `inf`, a dict) keeps its six string/numeric
entries stringified in order; an all-dropped list, a non-list value and
an absent key each default to the placeholder. -/
theorem C8_witness :
    (∃ r, _parse_payload [("duty_sample".data, PyValue.list
          [PyValue.str "alpha".data, PyValue.int 7, PyValue.bool true, PyValue.none,
           PyValue.float ⟨5, 2⟩, PyValue.inf true, PyValue.dict [],
           PyValue.str "omega".data])] = Except.ok r ∧
        r.duty_sample = ["alpha".data, "7".data, "True".data, pyFloatChars ⟨5, 2⟩,
          "inf".data, "omega".data]) ∧
    (∃ r, _parse_payload [("duty_sample".data,
          PyValue.list [PyValue.none, PyValue.dict []])] = Except.ok r ∧
        r.duty_sample = ["Role duties summary unavailable.".data]) ∧
    (∃ r, _parse_payload [("duty_sample".data, PyValue.int 3)] = Except.ok r ∧
        r.duty_sample = ["Role duties summary unavailable.".data]) ∧
    (∃ r, _parse_payload [] = Except.ok r ∧
        r.duty_sample = ["Role duties summary unavailable.".data]) := by
  refine
    ⟨⟨{ defaultResult with duty_sample := ["alpha".data, "7".data, "True".data,
          pyFloatChars ⟨5, 2⟩, "inf".data, "omega".data] }, rfl, ?_⟩,
     ⟨defaultResult, rfl, ?_⟩, ⟨defaultResult, rfl, ?_⟩, ⟨defaultResult, rfl, ?_⟩⟩
  · exact (C8_duty_sample_uncapped
        [("duty_sample".data, PyValue.list
          [PyValue.str "alpha".data, PyValue.int 7, PyValue.bool true, PyValue.none,
           PyValue.float ⟨5, 2⟩, PyValue.inf true, PyValue.dict [],
           PyValue.str "omega".data])]
        { defaultResult with duty_sample := ["alpha".data, "7".data, "True".data,
            pyFloatChars ⟨5, 2⟩, "inf".data, "omega".data] } rfl).1
      [PyValue.str "alpha".data, PyValue.int 7, PyValue.bool true, PyValue.none,
       PyValue.float ⟨5, 2⟩, PyValue.inf true, PyValue.dict [], PyValue.str "omega".data]
      rfl (by decide)
  · exact (C8_duty_sample_uncapped
        [("duty_sample".data, PyValue.list [PyValue.none, PyValue.dict []])]
        defaultResult rfl).2.1 [PyValue.none, PyValue.dict []] rfl rfl
  · exact (C8_duty_sample_uncapped [("duty_sample".data, PyValue.int 3)]
        defaultResult rfl).2.2.1 (PyValue.int 3) rfl (fun xs h => PyValue.noConfusion h)
  · exact (C8_duty_sample_uncapped [] defaultResult rfl).2.2.2 rfl

/-! ## Claim C1 — failed extraction is not an empty payload -/

/-- C1: when the response text contains no fenced JSON, the extractor
returns `None` and `_parse_payload(None)` raises `AttributeError` out of
`analyze_role` — the pipeline does not return a defaults-filled
`AssessmentResult` as the specification claims. -/
theorem C1_extraction_failure_raises :
    (∀ loads : List Char → Option PyValue,
        analyzeResponseText loads "The service declined to answer.".data =
          Except.error PyError.attributeError) ∧
    _parse_payload_any Option.none = Except.error PyError.attributeError := by
  constructor
  · intro loads
    have h : searchFence "The service declined to answer.".data = Option.none := by decide
    simp [analyzeResponseText, extract_and_load_json, h, _parse_payload_any]
  · rfl

/-! ## Claim C6 — remote file cleanup -/

/-- C6: whenever the upload yields a remote handle, the trace of remote
calls is exactly upload, analysis, delete — one delete for that handle,
issued after the analysis call, whether or not the analysis call raises —
and `_delete_remote_file` returns normally even when the delete call
itself fails. -/
theorem C6_remote_cleanup (env : RemoteEnv) (fid : ℕ)
    (h : env.upload = UploadOutcome.success fid) :
    (analyze_role_document env).1 =
      [RemoteEvent.uploadCall, RemoteEvent.analysisCall fid, RemoteEvent.deleteCall fid] ∧
    (analyze_role_document env).1.count (RemoteEvent.deleteCall fid) = 1 ∧
    _delete_remote_file env.deleteFails = Except.ok () := by
  have hd : _delete_remote_file env.deleteFails = Except.ok () := by
    unfold _delete_remote_file
    cases env.deleteFails <;> rfl
  have htrace : (analyze_role_document env).1 =
      [RemoteEvent.uploadCall, RemoteEvent.analysisCall fid, RemoteEvent.deleteCall fid] := by
    unfold analyze_role_document
    rw [h, hd]
    cases env.call <;> rfl
  refine ⟨htrace, ?_, hd⟩
  rw [htrace]
  simp [List.count_cons, beq_iff_eq]

/-- Witness for C6: a run where the analysis call raises and the delete
call itself fails. -/
theorem C6_witness :
    (analyze_role_document ⟨UploadOutcome.success 7, CallOutcome.failure, true⟩).1 =
      [RemoteEvent.uploadCall, RemoteEvent.analysisCall 7, RemoteEvent.deleteCall 7] ∧
    (analyze_role_document ⟨UploadOutcome.success 7, CallOutcome.failure, true⟩).1.count
      (RemoteEvent.deleteCall 7) = 1 ∧
    _delete_remote_file true = Except.ok () :=
  C6_remote_cleanup ⟨UploadOutcome.success 7, CallOutcome.failure, true⟩ 7 rfl

/-! ## Claim C7 — quota discipline -/

/-- C7: starting from a non-negative quota, a successful analysis
decrements the counter exactly once, every failure path (quota gate,
unsupported file type, analysis error, unexpected exception) leaves it
unchanged, and the counter never goes below zero. -/
theorem C7_quota_discipline (runs : ℤ) (outcome : AnalysisOutcome) (hnn : 0 ≤ runs) :
    (∀ r, outcome = AnalysisOutcome.success r → 0 < runs →
        (form_valid runs outcome).1 = runs - 1) ∧
    ((∀ r, outcome ≠ AnalysisOutcome.success r) →
        (form_valid runs outcome).1 = runs) ∧
    (runs ≤ 0 → (form_valid runs outcome).1 = runs) ∧
    0 ≤ (form_valid runs outcome).1 := by
  by_cases h : runs ≤ 0
  · have hfv : form_valid runs outcome = (runs, ViewOutcome.quotaExhausted) := by
      simp [form_valid, h]
    rw [hfv]
    exact ⟨fun r _ hpos => absurd hpos (by omega), fun _ => rfl, fun _ => rfl, hnn⟩
  · cases outcome with
    | success r =>
        have hfv : form_valid runs (AnalysisOutcome.success r) = (runs - 1, ViewOutcome.rendered) := by
          simp [form_valid, decrement_run, h]
        rw [hfv]
        exact ⟨fun r' _ _ => rfl, fun hne => absurd rfl (hne r), fun hle => absurd hle h, by omega⟩
    | unsupportedFileType =>
        have hfv : form_valid runs AnalysisOutcome.unsupportedFileType = (runs, ViewOutcome.formError) := by
          simp [form_valid, h]
        rw [hfv]
        exact ⟨fun r hr => (by cases hr), fun _ => rfl, fun hle => absurd hle h, hnn⟩
    | analysisError =>
        have hfv : form_valid runs AnalysisOutcome.analysisError = (runs, ViewOutcome.formError) := by
          simp [form_valid, h]
        rw [hfv]
        exact ⟨fun r hr => (by cases hr), fun _ => rfl, fun hle => absurd hle h, hnn⟩
    | unexpected =>
        have hfv : form_valid runs AnalysisOutcome.unexpected = (runs, ViewOutcome.formError) := by
          simp [form_valid, h]
        rw [hfv]
        exact ⟨fun r hr => (by cases hr), fun _ => rfl, fun hle => absurd hle h, hnn⟩

/-- Witness for C7: with three runs left, success leaves two, an analysis
error leaves three. -/
theorem C7_witness :
    (form_valid 3 (AnalysisOutcome.success defaultResult)).1 = 3 - 1 ∧
    (form_valid 3 AnalysisOutcome.analysisError).1 = 3 :=
  ⟨(C7_quota_discipline 3 (AnalysisOutcome.success defaultResult) (by decide)).1
      defaultResult rfl (by decide),
   (C7_quota_discipline 3 AnalysisOutcome.analysisError (by decide)).2.1
      (fun _ h => by cases h)⟩

/-! ## List-prefix helper lemmas for the forms and extractor models -/

theorem isPrefixOf_append_self (l r : List Char) : l.isPrefixOf (l ++ r) = true := by
  induction l with
  | nil => simp [List.isPrefixOf]
  | cons a t ih => simp [List.isPrefixOf, ih]

theorem isPrefixOf_cons_iff {a : Char} {as l : List Char} :
    ((a :: as).isPrefixOf l) = true ↔ ∃ t, l = a :: t ∧ as.isPrefixOf t = true := by
  cases l with
  | nil => simp [List.isPrefixOf]
  | cons b bs =>
      simp only [List.isPrefixOf, Bool.and_eq_true, beq_iff_eq]
      constructor
      · rintro ⟨rfl, hpre⟩
        exact ⟨bs, rfl, hpre⟩
      · rintro ⟨t, ht, hpre⟩
        injection ht with h1 h2
        subst h1
        subst h2
        exact ⟨rfl, hpre⟩

theorem validate_file_error_cases (f : UploadedFile) :
    _validate_file f ≠ Except.error FormError.bothProvided ∧
    _validate_file f ≠ Except.error FormError.neitherProvided := by
  unfold _validate_file
  split_ifs <;> simp

/-! ## Claim C9 — exactly-one-of input selection -/

/-- C9 counterexample: a submission with exactly one input present and
non-empty (a free-text description of fewer than 50 characters) is *not*
accepted, so "accepts iff exactly one is present and non-empty" fails. -/
theorem C9_counterexample :
    pyStrip "Need more info".data ≠ [] ∧
    clean Option.none "Need more info".data = Except.error FormError.descriptionTooShort := by
  constructor
  · decide
  · rfl

/-- C9 (amended): both inputs present yields the "both provided" error;
neither present yields the "neither provided" error; acceptance implies
exactly one input was present; and with exactly one input present the
request is never rejected with a both/neither error (though it may still
fail the per-input format checks). -/
theorem C9_input_selector (file : Option UploadedFile) (desc : List Char) :
    (file.isSome = true → pyStrip desc ≠ [] →
        clean file desc = Except.error FormError.bothProvided) ∧
    (file = Option.none → pyStrip desc = [] →
        clean file desc = Except.error FormError.neitherProvided) ∧
    (∀ out, clean file desc = Except.ok out →
        (file.isSome = true ∧ pyStrip desc = []) ∨ (file = Option.none ∧ pyStrip desc ≠ [])) ∧
    (clean file desc = Except.error FormError.bothProvided →
        file.isSome = true ∧ pyStrip desc ≠ []) ∧
    (clean file desc = Except.error FormError.neitherProvided →
        file = Option.none ∧ pyStrip desc = []) := by
  cases file with
  | none =>
      by_cases hrd : pyStrip desc = []
      · have hcl : clean Option.none desc = Except.error FormError.neitherProvided := by
          simp [clean, hrd]
        rw [hcl]
        exact ⟨by simp, fun _ _ => rfl, by simp, by simp, fun _ => ⟨rfl, hrd⟩⟩
      · by_cases hlen : (pyStrip desc).length < 50
        · have hcl : clean Option.none desc = Except.error FormError.descriptionTooShort := by
            simp [clean, List.isEmpty_iff, hrd, _validate_role_description, hlen, Except.map]
          rw [hcl]
          exact ⟨by simp, fun _ h => absurd h hrd, by simp, by simp, by simp⟩
        · have hcl : clean Option.none desc = Except.ok (Option.none, pyStrip desc) := by
            simp [clean, List.isEmpty_iff, hrd, _validate_role_description, hlen, Except.map]
          rw [hcl]
          exact ⟨by simp, fun _ h => absurd h hrd, fun _ _ => Or.inr ⟨rfl, hrd⟩, by simp, by simp⟩
  | some f =>
      by_cases hrd : pyStrip desc = []
      · have hcl : clean (some f) desc =
            (_validate_file f).map (fun _ => (some f, pyStrip desc)) := by
          simp [clean, hrd]
        refine ⟨fun _ h => absurd hrd h, by simp, fun _ _ => Or.inl ⟨rfl, hrd⟩, ?_, ?_⟩
        · intro hmap
          rw [hcl] at hmap
          cases hvf : _validate_file f with
          | ok u => rw [hvf] at hmap; simp [Except.map] at hmap
          | error e =>
              rw [hvf] at hmap
              simp [Except.map] at hmap
              rw [hmap] at hvf
              exact absurd hvf (validate_file_error_cases f).1
        · intro hmap
          rw [hcl] at hmap
          cases hvf : _validate_file f with
          | ok u => rw [hvf] at hmap; simp [Except.map] at hmap
          | error e =>
              rw [hvf] at hmap
              simp [Except.map] at hmap
              rw [hmap] at hvf
              exact absurd hvf (validate_file_error_cases f).2
      · have hcl : clean (some f) desc = Except.error FormError.bothProvided := by
          simp [clean, List.isEmpty_iff, hrd]
        rw [hcl]
        exact ⟨fun _ _ => rfl, by simp, by simp, fun _ => ⟨rfl, hrd⟩, by simp⟩

/-- Witness for C9: a both-provided and a neither-provided submission. -/
theorem C9_witness :
    clean (some ⟨"role.pdf".data, 10⟩) "A description that is certainly present.".data =
      Except.error FormError.bothProvided ∧
    clean Option.none "   ".data = Except.error FormError.neitherProvided :=
  ⟨(C9_input_selector (some ⟨"role.pdf".data, 10⟩)
      "A description that is certainly present.".data).1 rfl (by decide),
   (C9_input_selector Option.none "   ".data).2.1 rfl (by decide)⟩

/-! ## Claim C10 — free-text length validation -/

/-- C10 counterexample: a raw input of exactly 50 characters (49 letters
plus one trailing space) lies in [50, 4000] but is rejected as too short,
because the length check runs on the whitespace-stripped text. -/
theorem C10_counterexample :
    (List.replicate 49 'a' ++ [' ']).length = 50 ∧
    form_is_valid Option.none (List.replicate 49 'a' ++ [' ']) =
      Except.error FormError.descriptionTooShort := by
  constructor
  · decide
  · rfl

/-- C10 (amended): the bounds are evaluated on the whitespace-stripped
text.  With no document attached and a raw length within the 4000-char
field limit: a non-empty stripped text shorter than 50 is rejected as
"too short", a whitespace-only text is rejected as "neither provided",
and a stripped length of at least 50 is accepted. -/
theorem C10_description_length (desc : List Char) :
    (desc.length ≤ 4000 → pyStrip desc ≠ [] → (pyStrip desc).length < 50 →
        form_is_valid Option.none desc = Except.error FormError.descriptionTooShort) ∧
    (desc.length ≤ 4000 → pyStrip desc = [] →
        form_is_valid Option.none desc = Except.error FormError.neitherProvided) ∧
    (desc.length ≤ 4000 → 50 ≤ (pyStrip desc).length →
        form_is_valid Option.none desc = Except.ok (Option.none, pyStrip desc)) := by
  refine ⟨?_, ?_, ?_⟩
  · intro hlen hne hshort
    have h4 : ¬ (desc.length > 4000) := by omega
    simp [form_is_valid, h4, clean, List.isEmpty_iff, hne, _validate_role_description, hshort,
      Except.map]
  · intro hlen hemp
    have h4 : ¬ (desc.length > 4000) := by omega
    simp [form_is_valid, h4, clean, hemp]
  · intro hlen hge
    have h4 : ¬ (desc.length > 4000) := by omega
    have hne : pyStrip desc ≠ [] := by
      intro h
      rw [h] at hge
      simp at hge
    have hshort : ¬ ((pyStrip desc).length < 50) := by omega
    simp [form_is_valid, h4, clean, List.isEmpty_iff, hne, _validate_role_description, hshort,
      Except.map]

/-- Witness for C10: a 55-character description is accepted, a 10-character
one is rejected as too short. -/
theorem C10_witness :
    form_is_valid Option.none (List.replicate 55 'a') =
      Except.ok (Option.none, pyStrip (List.replicate 55 'a')) ∧
    form_is_valid Option.none "Too short.".data = Except.error FormError.descriptionTooShort :=
  ⟨(C10_description_length (List.replicate 55 'a')).2.2 (by decide) (by decide),
   (C10_description_length "Too short.".data).1 (by decide) (by decide) (by decide)⟩

/-! ## Claim C5 — accepted document extensions -/

theorem pyEndsWith_single_iff (L : List Char) (c : Char) :
    pyEndsWith L [c] = true ↔ ∃ t, L.reverse = c :: t := by
  unfold pyEndsWith
  constructor
  · intro h
    rcases isPrefixOf_cons_iff.mp h with ⟨t, ht, _⟩
    exact ⟨t, ht⟩
  · rintro ⟨t, ht⟩
    rw [show ([c]).reverse = [c] from rfl, ht]
    simp [List.isPrefixOf]

theorem pdf_ends_in_f (L : List Char) (h : pyEndsWith L ".pdf".data = true) :
    ∃ t, L.reverse = 'f' :: t := by
  unfold pyEndsWith at h
  have hr : (".pdf".data).reverse = 'f' :: 'd' :: 'p' :: '.' :: [] := by decide
  rw [hr] at h
  rcases isPrefixOf_cons_iff.mp h with ⟨t, ht, _⟩
  exact ⟨t, ht⟩

theorem docx_ends_in_x (L : List Char) (h : pyEndsWith L ".docx".data = true) :
    ∃ t, L.reverse = 'x' :: t := by
  unfold pyEndsWith at h
  have hr : (".docx".data).reverse = 'x' :: 'c' :: 'o' :: 'd' :: '.' :: [] := by decide
  rw [hr] at h
  rcases isPrefixOf_cons_iff.mp h with ⟨t, ht, _⟩
  exact ⟨t, ht⟩

theorem form_ext_any_iff (L : List Char) :
    form_SUPPORTED_EXTENSIONS.any (fun ext => pyEndsWith L [ext]) = true ↔
      pyEndsWith L ['.'] = true ∨ pyEndsWith L ['p'] = true ∨
      pyEndsWith L ['d'] = true ∨ pyEndsWith L ['f'] = true := by
  have hfe : form_SUPPORTED_EXTENSIONS = ['.', 'p', 'd', 'f'] := by decide
  rw [hfe]
  simp [List.any_cons, List.any_nil, Bool.or_eq_true]

theorem services_ext_any_iff (L : List Char) :
    services_SUPPORTED_EXTENSIONS.any (fun ext => pyEndsWith L ext) = true ↔
      pyEndsWith L ".pdf".data = true ∨ pyEndsWith L ".docx".data = true := by
  simp [services_SUPPORTED_EXTENSIONS, List.any_cons, List.any_nil, Bool.or_eq_true]

/-- C5 counterexample: the service-level `UnsupportedFileType` check
accepts `.docx` (its accepted set is not `{pdf}`), while the pipeline
rejection of a `.docx` file is the ValidationError of the *form* (whose
character-wise suffix check fails on the final `x`), not
`UnsupportedFileType`. -/
theorem C5_counterexample :
    _validate_extension "report.docx".data = Except.ok () ∧
    document_validation "report.docx".data 100 = Except.error DocError.formValidationError :=
  ⟨rfl, rfl⟩

/-- C5 (amended): for a size within the limit, the combined pipeline
validation (`RoleAssessmentForm._validate_file`, whose accepted-extension
constant is the *string* `".pdf"` iterated character by character, then
`_validate_extension`, which accepts `.pdf` and `.docx`) passes exactly
the filenames whose lower-cased form ends in `.pdf`; the error raised for
the others is `UnsupportedFileType` only when the form check passed
first. -/
theorem C5_extension_validation (name : List Char) (size : ℤ)
    (hsize : size ≤ MAX_FILE_SIZE) :
    document_validation name size = Except.ok () ↔
      pyEndsWith (pyLower name) ".pdf".data = true := by
  have hns : ¬ (size > MAX_FILE_SIZE) := by omega
  constructor
  · intro hok
    unfold document_validation at hok
    cases hvf : _validate_file ⟨name, size⟩ with
    | error e => rw [hvf] at hok; cases e <;> simp at hok
    | ok u =>
        rw [hvf] at hok
        cases hve : _validate_extension name with
        | error e => rw [hve] at hok; simp at hok
        | ok u2 =>
            have hform : form_SUPPORTED_EXTENSIONS.any
                (fun ext => pyEndsWith (pyLower name) [ext]) = true := by
              by_contra hc
              simp [_validate_file, hns, hc] at hvf
            have hserv : services_SUPPORTED_EXTENSIONS.any
                (fun ext => pyEndsWith (pyLower name) ext) = true := by
              by_contra hc
              simp [_validate_extension, hc] at hve
            rcases (services_ext_any_iff (pyLower name)).mp hserv with hpdf | hdocx
            · exact hpdf
            · exfalso
              rcases docx_ends_in_x _ hdocx with ⟨t, ht⟩
              rcases (form_ext_any_iff (pyLower name)).mp hform with h1 | h1 | h1 | h1 <;>
                · rcases (pyEndsWith_single_iff _ _).mp h1 with ⟨t2, ht2⟩
                  rw [ht] at ht2
                  injection ht2 with hc1 _
                  exact absurd hc1 (by decide)
  · intro hpdf
    have hform : form_SUPPORTED_EXTENSIONS.any
        (fun ext => pyEndsWith (pyLower name) [ext]) = true := by
      rw [form_ext_any_iff]
      rcases pdf_ends_in_f _ hpdf with ⟨t, ht⟩
      exact Or.inr (Or.inr (Or.inr ((pyEndsWith_single_iff _ _).mpr ⟨t, ht⟩)))
    have hserv : services_SUPPORTED_EXTENSIONS.any
        (fun ext => pyEndsWith (pyLower name) ext) = true := by
      rw [services_ext_any_iff]
      exact Or.inl hpdf
    simp [document_validation, _validate_file, _validate_extension, hns, hform, hserv]

/-- Witness for C5: an upper-case `.PDF` file is accepted, a `.txt` file
is not. -/
theorem C5_witness :
    document_validation "Profile.PDF".data 2048 = Except.ok () ∧
    document_validation "notes.txt".data 2048 ≠ Except.ok () :=
  ⟨(C5_extension_validation "Profile.PDF".data 2048 (by decide)).mpr (by decide),
   fun h => absurd ((C5_extension_validation "notes.txt".data 2048 (by decide)).mp h)
     (by decide)⟩

/-! ## Claim C4 — extractor round-trip -/

theorem closeFence_no_match (x : Char) (xs : List Char) (hx : x ≠ '\n') :
    closeFenceChars.isPrefixOf (x :: xs) = false := by
  have h : closeFenceChars = '\n' :: "```".data := by decide
  have hb : ('\n' == x) = false := beq_eq_false_iff_ne.mpr (Ne.symm hx)
  rw [h]
  simp [List.isPrefixOf, hb]

/-- The lazy closing scan consumes exactly the (newline-free) body of the
fenced payload, up to and including its final `}`. -/
theorem scanClose_payload (mid tail : List Char) (hmid : '\n' ∉ mid) :
    scanClose (mid ++ '\x7d' :: (closeFenceChars ++ tail)) = some (mid ++ ['\x7d']) := by
  induction mid with
  | nil =>
      simp only [List.nil_append]
      simp [scanClose, isPrefixOf_append_self]
  | cons c mid' ih =>
      have hmid' : '\n' ∉ mid' := fun h => hmid (List.mem_cons_of_mem _ h)
      have hcond : (c == '\x7d' &&
          closeFenceChars.isPrefixOf (mid' ++ '\x7d' :: (closeFenceChars ++ tail))) = false := by
        by_cases hc : c = '\x7d'
        · cases mid' with
          | nil =>
              simp [closeFence_no_match '\x7d' _ (by decide)]
          | cons d mid'' =>
              have hd : d ≠ '\n' := fun h => hmid' (h ▸ List.mem_cons_self d mid'')
              simp [closeFence_no_match d _ hd]
        · have : (c == '\x7d') = false := beq_eq_false_iff_ne.mpr hc
          simp [this]
      rw [List.cons_append]
      simp [scanClose, hcond, ih hmid']

theorem searchFence_cons (c : Char) (l : List Char) :
    searchFence (c :: l) =
      if fenceOpenChars.isPrefixOf (c :: l) then
        match scanClose (l.drop 8) with
        | some inner => some ('\x7b' :: inner)
        | Option.none => searchFence l
      else searchFence l := rfl

/-- When the scanned text starts at the fence, the regex captures exactly
the payload. -/
theorem searchFence_at_fence (mid q : List Char) (hmid : '\n' ∉ mid) :
    searchFence (fenceOpenChars ++ (mid ++ ('\x7d' :: (closeFenceChars ++ q)))) =
      some ('\x7b' :: (mid ++ ['\x7d'])) := by
  have h1 : fenceOpenChars = Char.ofNat 96 :: "``json\n\x7b".data := by decide
  rw [h1, List.cons_append, searchFence_cons, ← List.cons_append, ← h1]
  rw [isPrefixOf_append_self fenceOpenChars (mid ++ ('\x7d' :: (closeFenceChars ++ q)))]
  have hdrop : (("``json\n\x7b".data ++ (mid ++ ('\x7d' :: (closeFenceChars ++ q))))).drop 8 =
      mid ++ ('\x7d' :: (closeFenceChars ++ q)) := by
    rw [show (8 : ℕ) = ("``json\n\x7b".data).length from by decide]
    exact List.drop_left _ _
  simp only [hdrop, scanClose_payload mid q hmid]
  simp

theorem fenceFreeBefore_cons (c : Char) (p rest : List Char) :
    fenceFreeBefore (c :: p) rest =
      (!(fenceOpenChars.isPrefixOf (c :: (p ++ rest))) && fenceFreeBefore p rest) := by
  unfold fenceFreeBefore
  rw [List.length_cons, List.range_succ_eq_map]
  simp only [List.all_cons, List.all_map, List.cons_append, List.drop_zero]
  have hfe : ((fun i => !fenceOpenChars.isPrefixOf (List.drop i (c :: (p ++ rest)))) ∘ Nat.succ)
      = (fun i => !fenceOpenChars.isPrefixOf (List.drop i (p ++ rest))) := by
    funext i
    simp [Function.comp, List.drop_succ_cons]
  rw [hfe]

/-- The leftmost regex match lands on the real fence as long as no viable
fence start occurs inside the preceding prose. -/
theorem searchFence_with_prose (p mid q : List Char) (hmid : '\n' ∉ mid)
    (hp : fenceFreeBefore p
        (fenceOpenChars ++ (mid ++ ('\x7d' :: (closeFenceChars ++ q)))) = true) :
    searchFence (p ++ (fenceOpenChars ++ (mid ++ ('\x7d' :: (closeFenceChars ++ q))))) =
      some ('\x7b' :: (mid ++ ['\x7d'])) := by
  revert hp
  induction p with
  | nil =>
      intro _
      simpa using searchFence_at_fence mid q hmid
  | cons c p' ih =>
      intro hp
      rw [fenceFreeBefore_cons, Bool.and_eq_true] at hp
      obtain ⟨hnot, hrest⟩ := hp
      rw [Bool.not_eq_true'] at hnot
      rw [List.cons_append, searchFence_cons]
      simp only [hnot, Bool.false_eq_true, if_false]
      exact ih hrest

/-- C4 counterexample: the claim quantifies over *arbitrary* prose around
the fenced serialization of `J`.  With preceding prose that itself
contains a fenced `` ```json `` block (here an empty object), the regex
captures the payload of the prose `\x7b\x7d` instead of the serialization of
`J = \x7b"a": 1\x7d`, so the extracted object is not `J`. -/
theorem C4_counterexample :
    searchFence ("```json\n\x7b\x7d\n``` ".data ++
        ("```json\n".data ++ ("\x7b\"a\": 1\x7d".data ++ "\n```".data))) =
      some "\x7b\x7d".data ∧
    "\x7b\x7d".data ≠ "\x7b\"a\": 1\x7d".data := by
  constructor
  · decide
  · decide

/-- C4 (amended): for a single-line brace-delimited serialization (the
shape `json.dumps` emits) wrapped as `` ```json\n...\n``` ``, with
arbitrary prose after the block and prose before it that contains no
viable fence start, the regex captures exactly the serialization — so
`extract_and_load_json` hands `json.loads` exactly the serialization of
`J`, which parses back to `J`. -/
theorem C4_extractor_roundtrip (p mid q : List Char) (hmid : '\n' ∉ mid)
    (hp : fenceFreeBefore p
        (fenceOpenChars ++ (mid ++ ('\x7d' :: (closeFenceChars ++ q)))) = true) :
    searchFence (p ++ (fenceOpenChars ++ (mid ++ ('\x7d' :: (closeFenceChars ++ q))))) =
      some ('\x7b' :: (mid ++ ['\x7d'])) ∧
    ∀ loads : List Char → Option PyValue,
      extract_and_load_json loads
          (p ++ (fenceOpenChars ++ (mid ++ ('\x7d' :: (closeFenceChars ++ q))))) =
        loads ('\x7b' :: (mid ++ ['\x7d'])) := by
  have hs := searchFence_with_prose p mid q hmid hp
  exact ⟨hs, fun loads => by simp [extract_and_load_json, hs]⟩

/-- Witness for C4: ordinary prose around a fenced one-field object. -/
theorem C4_witness :
    searchFence ("Here is the analysis: ".data ++
        (fenceOpenChars ++ ("\"readiness_score\": 40".data ++
          ('\x7d' :: (closeFenceChars ++ " Done.".data))))) =
      some ('\x7b' :: ("\"readiness_score\": 40".data ++ ['\x7d'])) :=
  (C4_extractor_roundtrip "Here is the analysis: ".data "\"readiness_score\": 40".data
    " Done.".data (by decide) (by decide)).1
